import Mathlib

/-!
Verification of the earnings-calendar automation pipeline
(`automation_calendar.py`): a shallow embedding in Lean 4 of the data
model, the time-tag normalizer, the start-time resolver, the event
assembler and the per-record flow loop, together with theorems about
the behaviours the design documentation describes.
-/

namespace Calendar

/-- Clock time of day, as in Python's `datetime.time(hour, minute)`. -/
structure Time where
  hour : Nat
  minute : Nat
deriving DecidableEq, Repr

/-- Calendar date, as in Python's `datetime.date(year, month, day)`. -/
structure Date where
  year : Nat
  month : Nat
  day : Nat
deriving DecidableEq, Repr

/-- Timezone-aware datetime, as produced by
`datetime.combine(d, t).replace(tzinfo=TZ)`. -/
structure DateTime where
  date : Date
  time : Time
  tz : String
deriving DecidableEq, Repr

/-- Fixed target timezone constant `TZ = ZoneInfo("America/Sao_Paulo")`. -/
def TZ : String := "America/Sao_Paulo"

/-- Event duration constant `EVENT_DURATION_MIN = 30`. -/
def EVENT_DURATION_MIN : Nat := 30

/-- Default session clock times, `DEFAULT_TIME_MAP` (a dict, embedded as an
association list with the same keys and values). -/
def DEFAULT_TIME_MAP : List (String × Time) :=
  [("AFT-MKT", ⟨18, 0⟩), ("BEF-MKT", ⟨8, 0⟩), ("DUR-MKT", ⟨12, 0⟩)]

/-- Portuguese display names for the sessions, `MARKET_PT`. -/
def MARKET_PT : List (String × String) :=
  [("AFT-MKT", "Pós-mercado"), ("BEF-MKT", "Pré-mercado"),
   ("DUR-MKT", "Durante mercado")]

/-- Sector list `COBERTURA_ARTHUR`. -/
def COBERTURA_ARTHUR : List String :=
  ["Bancos", "Financials Ex-Bancos", "Consumo - Miguel", "Properties",
   "Homebuilders", "Staples", "Retail", "E-commerce", "Healthcare"]

/-- Sector list `COBERTURA_PAULO`. -/
def COBERTURA_PAULO : List String :=
  ["Elétricas", "Rodovias + Logistics Infrastructure",
   "Industrials + Gestão de Resíduos", "Metals & Mining",
   "Pulp & Paper", "TMT", "Oil & Gas", "Rentals"]

/-- Per-analyst default notification times, `HORARIO_NOTIFICACAO`. -/
def HORARIO_NOTIFICACAO : List (String × Time) :=
  [("Arthur", ⟨7, 0⟩), ("Paulo", ⟨8, 0⟩)]

/-- Characters removed by Python's `str.strip()` with no argument
(ASCII whitespace: space, tab, LF, CR, VT, FF). -/
def isPySpace (c : Char) : Bool :=
  c = ' ' || c = '\t' || c = '\n' || c = '\r' ||
  c = Char.ofNat 11 || c = Char.ofNat 12

/-- Embedding of Python's `str.strip()`: drop whitespace from both ends. -/
def pyStrip (s : String) : String :=
  ⟨((s.data.dropWhile isPySpace).reverse.dropWhile isPySpace).reverse⟩

/-- `remove_numbers_from_ticker`: `re.sub(r"\d+", "", ticker)` deletes every
decimal-digit character of the string (each maximal digit run is replaced
by the empty string, i.e. all digits are removed). -/
def remove_numbers_from_ticker (ticker : String) : String :=
  ⟨ticker.data.filter (fun c => !c.isDigit)⟩

/-- Numeric value of a digit string (used for the regex capture groups). -/
def digitsVal (ds : List Char) : Nat :=
  ds.foldl (fun a c => a * 10 + (c.toNat - '0'.toNat)) 0

/-- Matcher for the anchored regex `^(\d{1,2}):(\d{2})$` of `parse_hhmm`:
one or two digits, a colon, exactly two digits, end of string; returns the
two captured groups as numbers. (The leading `\d{1,2}` is followed by `:`,
which is not a digit, so the greedy match must consume the whole initial
digit run; a run longer than two digits can never match.) -/
def matchHHMM (cs : List Char) : Option (Nat × Nat) :=
  let p := cs.span Char.isDigit
  if 1 ≤ p.1.length ∧ p.1.length ≤ 2 then
    match p.2 with
    | ':' :: m1 :: m2 :: [] =>
        if m1.isDigit ∧ m2.isDigit then
          some (digitsVal p.1, digitsVal [m1, m2])
        else none
    | _ => none
  else none

/-- `parse_hhmm`: absent input gives `none`; otherwise strip, reject the
empty string, match `^(\d{1,2}):(\d{2})$`, and accept only hour ≤ 23 and
minute ≤ 59 (out of range gives `none`, it does not raise). -/
def parse_hhmm (raw : Option String) : Option Time :=
  match raw with
  | none => none
  | some raw =>
    let s := pyStrip raw
    if s = "" then none
    else
      match matchHHMM s.data with
      | none => none
      | some (h, mi) => if h ≤ 23 ∧ mi ≤ 59 then some ⟨h, mi⟩ else none

/-- Left-to-right non-overlapping replacement of a pattern inside a
character list, the semantics of Python's `str.replace`; `fuel` bounds the
number of scanning steps (callers pass the input length, which suffices
because every step consumes at least one character). -/
def replaceAux (pat rep : List Char) : Nat → List Char → List Char
  | _, [] => []
  | 0, cs => cs
  | Nat.succ fuel, c :: cs =>
    if pat.isPrefixOf (c :: cs) then
      rep ++ replaceAux pat rep fuel ((c :: cs).drop pat.length)
    else
      c :: replaceAux pat rep fuel cs

/-- Embedding of Python's `str.replace(pat, rep)` for a non-empty pattern. -/
def pyReplace (s pat rep : String) : String :=
  ⟨replaceAux pat.data rep.data s.data.length s.data⟩

/-- Embedding of Python's `str.upper()` (ASCII case mapping, which agrees
with Python on every string this program feeds it). -/
def pyUpper (s : String) : String :=
  ⟨s.data.map Char.toUpper⟩

/-- `normalize_market_tag`: absent input gives `none`; otherwise strip,
reject the empty string, uppercase, delete spaces, turn underscores into
dashes, rewrite the dashless synonyms `AFTMKT`/`BEFMKT`/`DURMKT` to their
canonical dashed forms, and return the result only if it is a key of
`DEFAULT_TIME_MAP`. -/
def normalize_market_tag (raw : Option String) : Option String :=
  match raw with
  | none => none
  | some raw =>
    let s := pyStrip raw
    if s = "" then none
    else
      let u := pyReplace (pyReplace (pyUpper s) " " "") "_" "-"
      let u := pyReplace (pyReplace (pyReplace u "AFTMKT" "AFT-MKT")
        "BEFMKT" "BEF-MKT") "DURMKT" "DUR-MKT"
      if (DEFAULT_TIME_MAP.lookup u).isSome then some u else none

/-- Gregorian leap-year rule (Python's proleptic Gregorian calendar). -/
def isLeapYear (y : Nat) : Bool :=
  (y % 4 == 0 && y % 100 != 0) || y % 400 == 0

/-- Number of days of a month in the proleptic Gregorian calendar. -/
def daysInMonth (y m : Nat) : Nat :=
  if m = 2 then (if isLeapYear y then 29 else 28)
  else if m = 4 ∨ m = 6 ∨ m = 9 ∨ m = 11 then 30
  else 31

/-- Previous calendar day: the embedding of `d - timedelta(days=1)` on
`datetime.date` values. -/
def predDate (d : Date) : Date :=
  if 1 < d.day then ⟨d.year, d.month, d.day - 1⟩
  else if 1 < d.month then ⟨d.year, d.month - 1, daysInMonth d.year (d.month - 1)⟩
  else ⟨d.year - 1, 12, 31⟩

/-- Next calendar day (used for minute arithmetic that crosses midnight). -/
def succDate (d : Date) : Date :=
  if d.day < daysInMonth d.year d.month then ⟨d.year, d.month, d.day + 1⟩
  else if d.month < 12 then ⟨d.year, d.month + 1, 1⟩
  else ⟨d.year + 1, 1, 1⟩

/-- Iterated successor: `d + timedelta(days=n)`. -/
def addDays (d : Date) : Nat → Date
  | 0 => d
  | n + 1 => addDays (succDate d) n

/-- Two-digit zero padding, as in `strftime` fields `%H` and `%M`. -/
def pad2 (n : Nat) : String :=
  if n < 10 then "0" ++ toString n else toString n

/-- Four-digit zero padding, as in ISO-8601 years. -/
def pad4 (n : Nat) : String :=
  if n < 10 then "000" ++ toString n
  else if n < 100 then "00" ++ toString n
  else if n < 1000 then "0" ++ toString n
  else toString n

/-- `t.strftime("%H:%M")`. -/
def timeHHMM (t : Time) : String :=
  pad2 t.hour ++ ":" ++ pad2 t.minute

/-- `d.isoformat()`: the `YYYY-MM-DD` rendering of a date. -/
def isoformat (d : Date) : String :=
  pad4 d.year ++ "-" ++ pad2 d.month ++ "-" ++ pad2 d.day

/-- Embedding of Python's `str.lower()` (ASCII case mapping). -/
def pyLower (s : String) : String :=
  ⟨s.data.map Char.toLower⟩

/-- `datetime + timedelta(minutes=mins)`: minute arithmetic with carry
into hours and days. -/
def addMinutes (dt : DateTime) (mins : Nat) : DateTime :=
  let total := dt.time.hour * 60 + dt.time.minute + mins
  ⟨addDays dt.date (total / 1440), ⟨total % 1440 / 60, total % 1440 % 60⟩, dt.tz⟩

/-- `get_analyst_from_sector`: membership test of the sector in the two
hard-coded coverage lists, first `COBERTURA_ARTHUR` then `COBERTURA_PAULO`. -/
def get_analyst_from_sector (setor : String) : Option String :=
  if setor ∈ COBERTURA_ARTHUR then some "Arthur"
  else if setor ∈ COBERTURA_PAULO then some "Paulo"
  else none

/-- `determine_start_time`: the start-time resolver. Priority 1: an
explicit clock time gives `date + time`, label `strftime("%H:%M")`.
Priority 2: a session tag is looked up in `DEFAULT_TIME_MAP` by an
unguarded dict access — embedded as `List.lookup`, whose `none` case
models the `KeyError` the Python would raise — the date is shifted one
day back exactly when the tag lowercases to `aft-mkt`, and the label is
`MARKET_PT.get(mkt, mkt)`. Priority 3: a sector that maps to an analyst
uses that analyst's `HORARIO_NOTIFICACAO` entry (again an unguarded dict
access). Fallback: 18:00 on the given date, label `Pós-mercado`. -/
def determine_start_time (d : Date) (setor : String)
    (hhmm : Option Time) (mkt : Option String) : Option (DateTime × String) :=
  match hhmm with
  | some t => some (⟨d, t, TZ⟩, timeHHMM t)
  | none =>
    match mkt with
    | some k =>
      match DEFAULT_TIME_MAP.lookup k with
      | none => none
      | some default_time =>
        let event_date := if pyLower k = "aft-mkt" then predDate d else d
        some (⟨event_date, default_time, TZ⟩, (MARKET_PT.lookup k).getD k)
    | none =>
      match get_analyst_from_sector setor with
      | some analyst =>
        match HORARIO_NOTIFICACAO.lookup analyst with
        | none => none
        | some notify_time =>
          some (⟨d, notify_time, TZ⟩,
            "Notificação " ++ analyst ++ " (" ++ timeHHMM notify_time ++ ")")
      | none => some (⟨d, ⟨18, 0⟩, TZ⟩, "Pós-mercado")

/-- Matcher for the unanchored prefix regex `\d+Q\d{2}` used by
`re.match` in `extract_period_quarter`: at least one digit, `Q`, at least
two more digits, anything after. (The greedy `\d+` is followed by `Q`,
not a digit, so it consumes exactly the maximal initial digit run.) -/
def matchPeriodQ (cs : List Char) : Bool :=
  let p := cs.span Char.isDigit
  !p.1.isEmpty &&
    match p.2 with
    | 'Q' :: a :: b :: _ => a.isDigit && b.isDigit
    | _ => false

/-- Matcher for the prefix regex `(\d+)T(\d{2})` of
`extract_period_quarter`, returning the two captured groups. -/
def matchPeriodT (cs : List Char) : Option (String × String) :=
  let p := cs.span Char.isDigit
  if p.1.isEmpty then none
  else
    match p.2 with
    | 'T' :: a :: b :: _ =>
        if a.isDigit && b.isDigit then some (⟨p.1⟩, ⟨[a, b]⟩) else none
    | _ => none

/-- `extract_period_quarter`: a missing or empty (falsy) period gives
`"Resultados"`; otherwise the stripped string is returned unchanged when
it already starts with `\d+Q\d{2}`, rewritten `<n>T<yy>` to `<n>Q<yy>`
when it starts with `(\d+)T(\d{2})`, and otherwise returned (stripped)
unchanged. -/
def extract_period_quarter (periodo : Option String) : String :=
  match periodo with
  | none => "Resultados"
  | some p =>
    if p = "" then "Resultados"
    else
      let ps := pyStrip p
      if matchPeriodQ ps.data then ps
      else
        match matchPeriodT ps.data with
        | some g => g.1 ++ "Q" ++ g.2
        | none => ps

/-- The `NormalizedTime` value of the design documentation: exactly one
of an explicit clock time, a canonical session tag, or unresolved. -/
inductive NormalizedTime where
  | explicitTime (t : Time)
  | session (tag : String)
  | unresolved
deriving DecidableEq, Repr

/-- The combined normalizer as the flow consumes it: the flow computes
`hhmm = parse_hhmm(raw)` and `mkt = normalize_market_tag(raw)` from the
same raw field, and `determine_start_time` tests `hhmm` strictly before
`mkt`, so clock-time parsing outranks session-tag matching. -/
def normalize (raw : Option String) : NormalizedTime :=
  match parse_hhmm raw with
  | some t => .explicitTime t
  | none =>
    match normalize_market_tag raw with
    | some k => .session k
    | none => .unresolved

/-- Truncation to 32 bits: arithmetic of `uuid.uuid5`'s underlying SHA-1
is on 32-bit words. -/
def u32 (n : Nat) : Nat := n % 4294967296

/-- 32-bit left rotation (for `x < 2^32`, the two parts are disjoint, so
addition is bitwise or). -/
def rotl (x k : Nat) : Nat :=
  (x * 2 ^ k) % 4294967296 + x / 2 ^ (32 - k)

/-- Big-endian byte rendering of `n` on `k` bytes. -/
def beBytes (k n : Nat) : List Nat :=
  (List.range k).map (fun i => n / 2 ^ (8 * (k - 1 - i)) % 256)

/-- SHA-1 message padding: append `0x80`, zero bytes up to 56 mod 64, and
the 8-byte big-endian bit length. -/
def sha1pad (msg : List Nat) : List Nat :=
  let len := msg.length
  msg ++ [128] ++ List.replicate ((119 - len % 64) % 64) 0 ++ beBytes 8 (len * 8)

/-- Split a byte list into 64-byte blocks (`fuel` bounds the recursion;
callers pass the list length). -/
def chunks64 : Nat → List Nat → List (List Nat)
  | _, [] => []
  | 0, _ => []
  | fuel + 1, cs => cs.take 64 :: chunks64 fuel (cs.drop 64)

/-- SHA-1 round function `f_t`. -/
def sha1f (t b c d : Nat) : Nat :=
  if t < 20 then (b &&& c) ||| ((4294967295 - b) &&& d)
  else if t < 40 then (b ^^^ c) ^^^ d
  else if t < 60 then ((b &&& c) ||| (b &&& d)) ||| (c &&& d)
  else (b ^^^ c) ^^^ d

/-- SHA-1 round constants `K_t`. -/
def sha1k (t : Nat) : Nat :=
  if t < 20 then 1518500249
  else if t < 40 then 1859775393
  else if t < 60 then 2400959708
  else 3395469782

/-- SHA-1 compression of one 64-byte block into the running five-word
state. -/
def sha1Block (hs : List Nat) (block : List Nat) : List Nat :=
  let w16 := (List.range 16).map (fun i =>
    block.getD (4 * i) 0 * 16777216 + block.getD (4 * i + 1) 0 * 65536 +
    block.getD (4 * i + 2) 0 * 256 + block.getD (4 * i + 3) 0)
  let w := (List.range 64).foldl (fun w _ =>
    w ++ [rotl (((w.getD (w.length - 3) 0) ^^^ (w.getD (w.length - 8) 0)) ^^^
      ((w.getD (w.length - 14) 0) ^^^ (w.getD (w.length - 16) 0))) 1]) w16
  let s := (List.range 80).foldl (fun s t =>
    let a := s.getD 0 0
    let b := s.getD 1 0
    let c := s.getD 2 0
    let d := s.getD 3 0
    let e := s.getD 4 0
    [u32 (rotl a 5 + sha1f t b c d + e + sha1k t + w.getD t 0),
     a, rotl b 30, c, d]) hs
  [u32 (hs.getD 0 0 + s.getD 0 0), u32 (hs.getD 1 0 + s.getD 1 0),
   u32 (hs.getD 2 0 + s.getD 2 0), u32 (hs.getD 3 0 + s.getD 3 0),
   u32 (hs.getD 4 0 + s.getD 4 0)]

/-- SHA-1 digest (20 bytes) of a byte list. -/
def sha1 (msg : List Nat) : List Nat :=
  let padded := sha1pad msg
  let hs := (chunks64 padded.length padded).foldl sha1Block
    [1732584193, 4023233417, 2562383102, 271733878, 3285377520]
  (hs.map (beBytes 4)).flatten

/-- UTF-8 bytes of a string, as Python's `str.encode("utf-8")`. -/
def utf8Bytes (s : String) : List Nat :=
  s.toUTF8.toList.map (fun b => b.toNat)

/-- The bytes of `uuid.NAMESPACE_URL`
(`6ba7b811-9dad-11d1-80b4-00c04fd430c8`). -/
def NAMESPACE_URL : List Nat :=
  [107, 167, 184, 17, 157, 173, 17, 209, 128, 180, 0, 192, 79, 212, 48, 200]

/-- Lowercase hex digit of a value below 16. -/
def hexDigit (n : Nat) : Char :=
  if n < 10 then Char.ofNat ('0'.toNat + n) else Char.ofNat ('a'.toNat + n - 10)

/-- Lowercase hex rendering of a byte list. -/
def bytesHex (bs : List Nat) : String :=
  ⟨(bs.map (fun b => [hexDigit (b / 16 % 16), hexDigit (b % 16)])).flatten⟩

/-- `uuid.uuid5(namespace, name)`: the SHA-1 of the namespace bytes
followed by the UTF-8 name, truncated to 16 bytes, with the version
nibble forced to 5 and the variant bits to `10`, rendered 8-4-4-4-12. -/
def uuid5 (ns : List Nat) (name : String) : String :=
  let digest := (sha1 (ns ++ utf8Bytes name)).take 16
  let digest := digest.set 6 (digest.getD 6 0 % 16 + 80)
  let digest := digest.set 8 (digest.getD 8 0 % 64 + 128)
  bytesHex (digest.take 4) ++ "-" ++ bytesHex ((digest.drop 4).take 2) ++ "-" ++
    bytesHex ((digest.drop 6).take 2) ++ "-" ++ bytesHex ((digest.drop 8).take 2) ++
    "-" ++ bytesHex (digest.drop 10)

/-- Python string join of the parts with a `|` separator between them. -/
def joinBar : List String → String
  | [] => ""
  | p :: ps => ps.foldl (fun a b => a ++ "|" ++ b) p

/-- `stable_uid(*parts)`: the name-based (deterministic) UUID of the
parts joined with `"|"` under `uuid.NAMESPACE_URL`. -/
def stable_uid (parts : List String) : String :=
  uuid5 NAMESPACE_URL (joinBar parts)

/-- One input row of the `NextPerTicker` sheet, as the flow loop reads it:
`ticker` and `setor` are the stringified cells (the flow strips them;
an absent `Setor` column reads as `""`), `periodo` is the stringified
`Período` cell or `none` when that column is absent, `data` is the result
of `pd.to_datetime(..., errors="coerce")` with `none` for `NaT`, and
`rawTime` is the hour-column cell or `none` when the column is missing or
the cell is NA. -/
structure Row where
  ticker : String
  setor : String
  periodo : Option String
  data : Option Date
  rawTime : Option String
deriving DecidableEq, Repr

/-- One emitted calendar event, with the fields the flow sets on `Event()`
(`name`, `begin`, `end`, `description`, `uid`, `categories`). -/
structure Event where
  name : String
  eBegin : DateTime
  eEnd : DateTime
  description : String
  uid : String
  categories : Option String
deriving DecidableEq, Repr

/-- Outcome of one iteration of the flow loop: the row is skipped (the
ignored counter is incremented and the loop continues), an event is made,
or the unreachable `KeyError` path of `determine_start_time` is hit (which
in Python would abort the whole flow). -/
inductive RowResult where
  | errKey
  | skipped
  | made (e : Event)
deriving DecidableEq, Repr

/-- `str(periodo)` for the optional period variable (`str(None)` is the
string `"None"`). -/
def pyStrOpt : Option String → String
  | some s => s
  | none => "None"

/-- Python's newline join of a list of lines. -/
def joinNL : List String → String
  | [] => ""
  | l :: ls => ls.foldl (fun a b => a ++ "\n" ++ b) l

/-- The body of the flow's per-row loop (`automation_calendar_flow`,
per-record part): validate the ticker (empty or `"nan"` is skipped),
validate the date (`NaT` is skipped), normalize the hour field, resolve
the start time, build title / description / uid and produce the event. -/
def processRow (row : Row) : RowResult :=
  let ticker := pyStrip row.ticker
  if ticker = "" ∨ pyLower ticker = "nan" then .skipped
  else
    let ticker_clean := remove_numbers_from_ticker ticker
    match row.data with
    | none => .skipped
    | some data =>
      let setor := pyStrip row.setor
      let periodo := row.periodo.map pyStrip
      let raw_time_str := row.rawTime.map pyStrip
      let hhmm := parse_hhmm raw_time_str
      let mkt := normalize_market_tag raw_time_str
      match determine_start_time data setor hhmm mkt with
      | none => .errKey
      | some (start_dt, time_desc) =>
        let period_label := extract_period_quarter periodo
        let title0 := "[" ++ ticker_clean ++ "] - Divulgação de " ++ period_label
        let title :=
          if time_desc ≠ "" ∧ time_desc ∉ ["Resultados"] then
            title0 ++ " (" ++ time_desc ++ ")"
          else title0
        let desc_lines :=
          ["Ticker: " ++ ticker_clean, "Data: " ++ isoformat data,
           "Horário: " ++ time_desc] ++
          (match periodo with
           | some p => if p ≠ "" ∧ pyLower p ≠ "nan" then ["Período: " ++ p] else []
           | none => []) ++
          (if setor ≠ "" ∧ pyLower setor ≠ "nan" then
            ["Setor: " ++ setor] ++
              (match get_analyst_from_sector setor with
               | some a => ["Analista: " ++ a]
               | none => [])
          else [])
        .made
          { name := title
            eBegin := start_dt
            eEnd := addMinutes start_dt EVENT_DURATION_MIN
            description := joinNL desc_lines
            uid := stable_uid [ticker_clean, pyStrOpt periodo, isoformat data, time_desc]
            categories :=
              if setor ≠ "" ∧ pyLower setor ≠ "nan" then some setor else none }

/-- The flow's loop over all rows, threading the event list and the
created / ignored counters; an `errKey` outcome aborts with an error, as
an uncaught `KeyError` would abort the Python flow. -/
def flowAux : List Event × Nat × Nat → List Row → Except String (List Event × Nat × Nat)
  | acc, [] => .ok acc
  | acc, r :: rs =>
    match processRow r with
    | .errKey => .error "KeyError"
    | .skipped => flowAux (acc.1, acc.2.1, acc.2.2 + 1) rs
    | .made e => flowAux (acc.1 ++ [e], acc.2.1 + 1, acc.2.2) rs

/-- `automation_calendar_flow`, restricted to its per-record core: from
the list of input rows to the emitted events and the
`eventos_criados` / `eventos_ignorados` counters (file input and `.ics`
serialization are the out-of-scope glue around this loop). -/
def automation_calendar_flow (rows : List Row) :
    Except String (List Event × Nat × Nat) :=
  flowAux ([], 0, 0) rows

/-- A well-formed sample row (used to instantiate theorems). -/
def sampleRow : Row :=
  ⟨"PETR4", "", none, some ⟨2024, 11, 14⟩, none⟩

/-- A defective sample row with an empty ticker. -/
def badRow : Row :=
  ⟨"", "", none, none, none⟩

/-- Observer: does the loop body skip this row (incrementing the ignored
counter)? -/
def isSkippedRow (r : Row) : Bool :=
  match processRow r with
  | .skipped => true
  | _ => false

/-- Observer: the events the loop emits for a list of rows, in order. -/
def rowEvents (rows : List Row) : List Event :=
  rows.filterMap (fun r =>
    match processRow r with
    | .made e => some e
    | _ => none)

/-- Observer: how many rows of the list the loop skips. -/
def countSkipped (rows : List Row) : Nat :=
  (rows.filter isSkippedRow).length

example : determine_start_time ⟨2024, 11, 14⟩ "" none (some "AFT-MKT") =
    some (⟨⟨2024, 11, 13⟩, ⟨18, 0⟩, TZ⟩, "Pós-mercado") := by decide
example : determine_start_time ⟨2024, 11, 14⟩ "" none (some "BEF-MKT") =
    some (⟨⟨2024, 11, 14⟩, ⟨8, 0⟩, TZ⟩, "Pré-mercado") := by decide
example : determine_start_time ⟨2024, 11, 14⟩ "Bancos" none none =
    some (⟨⟨2024, 11, 14⟩, ⟨7, 0⟩, TZ⟩, "Notificação Arthur (07:00)") := by decide
example : determine_start_time ⟨2024, 11, 14⟩ "???" none none =
    some (⟨⟨2024, 11, 14⟩, ⟨18, 0⟩, TZ⟩, "Pós-mercado") := by decide
example : determine_start_time ⟨2024, 3, 1⟩ "" none (some "AFT-MKT") =
    some (⟨⟨2024, 2, 29⟩, ⟨18, 0⟩, TZ⟩, "Pós-mercado") := by decide
example : extract_period_quarter (some "4T24") = "4Q24" := by decide
example : extract_period_quarter (some "4Q24") = "4Q24" := by decide
example : extract_period_quarter (some "") = "Resultados" := by decide
example : extract_period_quarter none = "Resultados" := by decide
example : extract_period_quarter (some "FY24") = "FY24" := by decide
example : normalize (some "09:30") = .explicitTime ⟨9, 30⟩ := by decide
example : normalize (some "25:00") = .unresolved := by decide
example : addMinutes ⟨⟨2024, 12, 31⟩, ⟨23, 45⟩, TZ⟩ 30 =
    ⟨⟨2025, 1, 1⟩, ⟨0, 15⟩, TZ⟩ := by decide

example : parse_hhmm (some "09:30") = some ⟨9, 30⟩ := by decide
example : parse_hhmm (some " 9:05 ") = some ⟨9, 5⟩ := by decide
example : parse_hhmm (some "25:00") = none := by decide
example : parse_hhmm (some "125:00") = none := by decide
example : parse_hhmm (some "9:5") = none := by decide
example : normalize_market_tag (some "Aft-mkt") = some "AFT-MKT" := by decide
example : normalize_market_tag (some "AFT_MKT") = some "AFT-MKT" := by decide
example : normalize_market_tag (some "aftmkt") = some "AFT-MKT" := by decide
example : normalize_market_tag (some " bef mkt ") = some "BEF-MKT" := by decide
example : normalize_market_tag (some "nonsense") = none := by decide
example : remove_numbers_from_ticker "PETR4" = "PETR" := by decide
example : remove_numbers_from_ticker "A1B" = "AB" := by decide
example : pyStrip "  ab c  " = "ab c" := by decide

/-! ### Helper lemmas -/

/-- `get_analyst_from_sector` only ever returns the two analysts. -/
theorem get_analyst_cases (setor a : String)
    (h : get_analyst_from_sector setor = some a) : a = "Arthur" ∨ a = "Paulo" := by
  unfold get_analyst_from_sector at h
  split at h
  · exact Or.inl (Option.some.inj h).symm
  · split at h
    · exact Or.inr (Option.some.inj h).symm
    · cases h

/-- The only keys on which the session-default lookup succeeds are the
three canonical tags. -/
theorem lookup_default_keys (k : String)
    (h : (DEFAULT_TIME_MAP.lookup k).isSome = true) :
    k = "AFT-MKT" ∨ k = "BEF-MKT" ∨ k = "DUR-MKT" := by
  by_cases h1 : k = "AFT-MKT"
  · exact Or.inl h1
  · by_cases h2 : k = "BEF-MKT"
    · exact Or.inr (Or.inl h2)
    · by_cases h3 : k = "DUR-MKT"
      · exact Or.inr (Or.inr h3)
      · exfalso
        simp [DEFAULT_TIME_MAP, List.lookup, beq_eq_false_iff_ne.mpr h1,
          beq_eq_false_iff_ne.mpr h2, beq_eq_false_iff_ne.mpr h3] at h

/-- Whatever the tag normalizer returns is a key of `DEFAULT_TIME_MAP`. -/
theorem normalize_market_tag_key (raw : Option String) (k : String)
    (h : normalize_market_tag raw = some k) :
    (DEFAULT_TIME_MAP.lookup k).isSome = true := by
  cases raw with
  | none => cases h
  | some s =>
    simp only [normalize_market_tag] at h
    split at h
    · cases h
    · split at h
      · next hk => exact (Option.some.inj h) ▸ hk
      · cases h

/-- The clock-time parser only accepts in-range hours and minutes. -/
theorem parse_hhmm_bounds (raw : Option String) (t : Time)
    (h : parse_hhmm raw = some t) : t.hour ≤ 23 ∧ t.minute ≤ 59 := by
  cases raw with
  | none => cases h
  | some s =>
    simp only [parse_hhmm] at h
    split at h
    · cases h
    · split at h
      · cases h
      · split at h
        · next hc => exact (Option.some.inj h) ▸ hc
        · cases h

/-- Zero-padded rendering of a number below 100 has exactly two
characters. -/
theorem pad2_length (n : Nat) (h : n < 100) : (pad2 n).length = 2 := by
  have hall : ∀ m : Fin 100, (pad2 m.val).length = 2 := by decide
  exact hall ⟨n, h⟩

/-- The `HH:MM` label always has five characters. -/
theorem timeHHMM_length (t : Time) (h1 : t.hour < 100) (h2 : t.minute < 100) :
    (timeHHMM t).length = 5 := by
  unfold timeHHMM
  rw [String.length_append, String.length_append,
    pad2_length _ h1, pad2_length _ h2]
  rfl

/-- The `HH:MM` label is neither empty nor the placeholder word. -/
theorem timeHHMM_ne (t : Time) (h1 : t.hour < 100) (h2 : t.minute < 100) :
    timeHHMM t ≠ "" ∧ timeHHMM t ≠ "Resultados" := by
  have hl := timeHHMM_length t h1 h2
  constructor <;> intro he <;> rw [he] at hl <;> exact absurd hl (by decide)

/-- The resolver is total on every input the flow can hand it: with the
clock time and session tag both produced by the normalizer from the same
raw field, the unguarded dict lookups always succeed. -/
theorem determine_isSome (d : Date) (setor : String) (raw : Option String) :
    (determine_start_time d setor (parse_hhmm raw) (normalize_market_tag raw)).isSome
      = true := by
  cases hp : parse_hhmm raw with
  | some t => simp [determine_start_time]
  | none =>
    cases hm : normalize_market_tag raw with
    | some k =>
      have hk := normalize_market_tag_key raw k hm
      obtain ⟨v, hv⟩ := Option.isSome_iff_exists.mp hk
      simp [determine_start_time, hv]
    | none =>
      cases ha : get_analyst_from_sector setor with
      | some a =>
        rcases get_analyst_cases setor a ha with h | h <;> subst h <;>
          simp [determine_start_time, ha, HORARIO_NOTIFICACAO, List.lookup]
      | none => simp [determine_start_time, ha]

/-- Every label the resolver can actually return to the flow is non-empty
and differs from the generic placeholder `"Resultados"`. -/
theorem label_facts (d : Date) (setor : String) (raw : Option String)
    (dt : DateTime) (lbl : String)
    (h : determine_start_time d setor (parse_hhmm raw) (normalize_market_tag raw)
      = some (dt, lbl)) : lbl ≠ "" ∧ lbl ≠ "Resultados" := by
  cases hp : parse_hhmm raw with
  | some t =>
    rw [hp] at h
    obtain ⟨hb1, hb2⟩ := parse_hhmm_bounds raw t hp
    simp only [determine_start_time] at h
    obtain ⟨-, rfl⟩ := Prod.mk.injEq .. ▸ Option.some.inj h
    exact timeHHMM_ne t (by omega) (by omega)
  | none =>
    rw [hp] at h
    cases hm : normalize_market_tag raw with
    | some k =>
      rw [hm] at h
      have hk := normalize_market_tag_key raw k hm
      rcases lookup_default_keys k hk with rfl | rfl | rfl <;>
        simp only [determine_start_time, DEFAULT_TIME_MAP, MARKET_PT,
          List.lookup] at h <;>
        obtain ⟨-, rfl⟩ := Prod.mk.injEq .. ▸ Option.some.inj h <;>
        exact ⟨by decide, by decide⟩
    | none =>
      rw [hm] at h
      cases ha : get_analyst_from_sector setor with
      | some a =>
        rw [show determine_start_time d setor none none =
          (match get_analyst_from_sector setor with
           | some analyst =>
             match HORARIO_NOTIFICACAO.lookup analyst with
             | none => none
             | some notify_time =>
               some (⟨d, notify_time, TZ⟩,
                 "Notificação " ++ analyst ++ " (" ++ timeHHMM notify_time ++ ")")
           | none => some (⟨d, ⟨18, 0⟩, TZ⟩, "Pós-mercado")) from rfl, ha] at h
        rcases get_analyst_cases setor a ha with rfl | rfl <;>
          simp only [HORARIO_NOTIFICACAO, List.lookup] at h <;>
          obtain ⟨-, rfl⟩ := Prod.mk.injEq .. ▸ Option.some.inj h <;>
          exact ⟨by decide, by decide⟩
      | none =>
        rw [show determine_start_time d setor none none =
          (match get_analyst_from_sector setor with
           | some analyst =>
             match HORARIO_NOTIFICACAO.lookup analyst with
             | none => none
             | some notify_time =>
               some (⟨d, notify_time, TZ⟩,
                 "Notificação " ++ analyst ++ " (" ++ timeHHMM notify_time ++ ")")
           | none => some (⟨d, ⟨18, 0⟩, TZ⟩, "Pós-mercado")) from rfl, ha] at h
        obtain ⟨-, rfl⟩ := Prod.mk.injEq .. ▸ Option.some.inj h
        exact ⟨by decide, by decide⟩

/-- The loop body can never take the `KeyError` path. -/
theorem processRow_ne_err (r : Row) : processRow r ≠ .errKey := by
  simp only [processRow]
  split
  · simp
  · split
    · simp
    · next data hdata =>
      have hs := determine_isSome data (pyStrip r.setor) (r.rawTime.map pyStrip)
      split
      · next hnone => rw [hnone] at hs; cases hs
      · simp

/-- Closed form of the flow loop: it returns `ok`, the events are the
per-row events in order, and the counters count the made and skipped
rows. -/
theorem flowAux_eq (rows : List Row) : ∀ acc, flowAux acc rows =
    .ok (acc.1 ++ rowEvents rows, acc.2.1 + (rowEvents rows).length,
      acc.2.2 + countSkipped rows) := by
  induction rows with
  | nil => intro acc; simp [flowAux, rowEvents, countSkipped]
  | cons r rs ih =>
    intro acc
    cases hr : processRow r with
    | errKey => exact absurd hr (processRow_ne_err r)
    | skipped =>
      simp only [flowAux, hr]
      rw [ih]
      simp only [rowEvents, countSkipped, isSkippedRow, hr, List.filterMap_cons,
        List.filter_cons]
      simp only [if_true, List.length_cons, Except.ok.injEq, Prod.mk.injEq,
        true_and, and_true, List.append_cancel_left_eq]
      omega
    | made e =>
      simp only [flowAux, hr]
      rw [ih]
      simp only [rowEvents, countSkipped, isSkippedRow, hr, List.filterMap_cons,
        List.filter_cons]
      simp [List.append_assoc]
      omega

/-- `automation_calendar_flow` in closed form. -/
theorem flow_eq (rows : List Row) : automation_calendar_flow rows =
    .ok (rowEvents rows, (rowEvents rows).length, countSkipped rows) := by
  unfold automation_calendar_flow
  rw [flowAux_eq]
  simp

/-- Every row is either made into an event or counted as skipped. -/
theorem counts_sum (rows : List Row) :
    (rowEvents rows).length + countSkipped rows = rows.length := by
  induction rows with
  | nil => simp [rowEvents, countSkipped]
  | cons r rs ih =>
    cases hr : processRow r with
    | errKey => exact absurd hr (processRow_ne_err r)
    | skipped =>
      simp only [rowEvents, countSkipped, isSkippedRow, hr, List.filterMap_cons,
        List.filter_cons] at *
      simp at *
      omega
    | made e =>
      simp only [rowEvents, countSkipped, isSkippedRow, hr, List.filterMap_cons,
        List.filter_cons] at *
      simp at *
      omega

/-- The emitted events of a concatenation. -/
theorem rowEvents_append (l1 l2 : List Row) :
    rowEvents (l1 ++ l2) = rowEvents l1 ++ rowEvents l2 := by
  simp [rowEvents, List.filterMap_append]

/-- The skip count of a concatenation. -/
theorem countSkipped_append (l1 l2 : List Row) :
    countSkipped (l1 ++ l2) = countSkipped l1 + countSkipped l2 := by
  simp [countSkipped, List.filter_append]

/-- A row whose ticker is empty or the `nan` placeholder, or whose date
did not parse, is skipped by the loop body. -/
theorem defect_skipped (r : Row)
    (h : pyStrip r.ticker = "" ∨ pyLower (pyStrip r.ticker) = "nan" ∨
      r.data = none) :
    processRow r = .skipped := by
  simp only [processRow]
  rcases h with h | h | h
  · rw [if_pos (Or.inl h)]
  · rw [if_pos (Or.inr h)]
  · split
    · rfl
    · simp [h]

/-- Every event the loop body makes carries a title with the timing label
appended in parentheses (the guard that would omit it can never fire). -/
theorem processRow_made_name (r : Row) (e : Event) (h : processRow r = .made e) :
    ∃ tc pl lbl, lbl ≠ "" ∧ lbl ≠ "Resultados" ∧
      e.name = "[" ++ tc ++ "] - Divulgação de " ++ pl ++ " (" ++ lbl ++ ")" := by
  simp only [processRow] at h
  split at h
  · cases h
  · split at h
    · cases h
    · next data hdata =>
      split at h
      · cases h
      · next start_dt time_desc hdt =>
        have hl := label_facts data (pyStrip r.setor) (r.rawTime.map pyStrip)
          start_dt time_desc hdt
        have he := RowResult.made.inj h
        refine ⟨remove_numbers_from_ticker (pyStrip r.ticker),
          extract_period_quarter (r.periodo.map pyStrip), time_desc,
          hl.1, hl.2, ?_⟩
        rw [← he]
        have hcond : time_desc ≠ "" ∧ time_desc ∉ ["Resultados"] :=
          ⟨hl.1, by simp [hl.2]⟩
        dsimp only
        rw [if_pos hcond]

/-! ### Claim theorems -/

/-- Claim C1: with no explicit clock time, a post-market session tag
resolves to the previous calendar day at the default 18:00 with the
post-market display label, while pre-market and during-market tags never
shift the date and resolve to 08:00 and 12:00 with their display labels;
in particular 2024-11-14 with the post-market tag resolves to 2024-11-13
18:00 and with the pre-market tag to 2024-11-14 08:00. -/
theorem C1_session_defaults (d : Date) (setor : String) :
    determine_start_time d setor none (some "AFT-MKT") =
      some (⟨predDate d, ⟨18, 0⟩, TZ⟩, "Pós-mercado") ∧
    determine_start_time d setor none (some "BEF-MKT") =
      some (⟨d, ⟨8, 0⟩, TZ⟩, "Pré-mercado") ∧
    determine_start_time d setor none (some "DUR-MKT") =
      some (⟨d, ⟨12, 0⟩, TZ⟩, "Durante mercado") ∧
    determine_start_time ⟨2024, 11, 14⟩ setor none (some "AFT-MKT") =
      some (⟨⟨2024, 11, 13⟩, ⟨18, 0⟩, TZ⟩, "Pós-mercado") ∧
    determine_start_time ⟨2024, 11, 14⟩ setor none (some "BEF-MKT") =
      some (⟨⟨2024, 11, 14⟩, ⟨8, 0⟩, TZ⟩, "Pré-mercado") :=
  ⟨rfl, rfl, rfl, rfl, rfl⟩

/-- Claim C2: the resolver's rules apply in fixed precedence order. An
explicit clock time always wins, on the unshifted date, whatever the
session tag (in particular 09:30 with a post-market tag gives 09:30 on
the given date); with no explicit time, a session tag decides even when
the sector maps to a coverage group. -/
theorem C2_precedence (d : Date) (setor : String) (t : Time)
    (mkt : Option String) (g : String)
    (hg : get_analyst_from_sector setor = some g) :
    determine_start_time d setor (some t) mkt = some (⟨d, t, TZ⟩, timeHHMM t) ∧
    determine_start_time d setor (some ⟨9, 30⟩) (some "AFT-MKT") =
      some (⟨d, ⟨9, 30⟩, TZ⟩, "09:30") ∧
    determine_start_time d setor none (some "AFT-MKT") =
      some (⟨predDate d, ⟨18, 0⟩, TZ⟩, "Pós-mercado") ∧
    determine_start_time d setor none (some "BEF-MKT") =
      some (⟨d, ⟨8, 0⟩, TZ⟩, "Pré-mercado") ∧
    determine_start_time d setor none (some "DUR-MKT") =
      some (⟨d, ⟨12, 0⟩, TZ⟩, "Durante mercado") :=
  ⟨rfl, rfl, rfl, rfl, rfl⟩

/-- Claim C2 witness: a sector covered by Arthur together with an
explicit 09:30 and a post-market tag still resolves to 09:30 on the
given date. -/
theorem C2_precedence_witness :
    determine_start_time ⟨2024, 11, 14⟩ "Bancos" (some ⟨9, 30⟩) (some "AFT-MKT") =
      some (⟨⟨2024, 11, 14⟩, ⟨9, 30⟩, TZ⟩, "09:30") :=
  (C2_precedence ⟨2024, 11, 14⟩ "Bancos" ⟨9, 30⟩ (some "AFT-MKT") "Arthur"
    (by decide)).2.1

/-- Claim C3: the time-tag normalizer is total; absent or blank input is
unresolved; an in-range `H:MM`/`HH:MM` string is an explicit clock time,
and clock-time parsing is tried strictly before session-tag matching;
out-of-range times fall through to tag matching instead of raising; the
dashless, underscored and mixed-case synonyms of each session map to its
canonical tag; text that neither parses as a time nor matches a tag is
unresolved. -/
theorem C3_normalizer :
    normalize none = .unresolved ∧
    (∀ s, pyStrip s = "" → normalize (some s) = .unresolved) ∧
    (∀ raw t, parse_hhmm raw = some t → normalize raw = .explicitTime t) ∧
    (∀ raw t, parse_hhmm raw = some t → t.hour ≤ 23 ∧ t.minute ≤ 59) ∧
    (∀ s h m, matchHHMM (pyStrip s).data = some (h, m) → h ≤ 23 → m ≤ 59 →
      parse_hhmm (some s) = some ⟨h, m⟩ ∧
        normalize (some s) = .explicitTime ⟨h, m⟩) ∧
    (parse_hhmm (some "25:00") = none ∧
      normalize_market_tag (some "25:00") = none ∧
      normalize (some "25:00") = .unresolved) ∧
    (normalize (some "AFTMKT") = .session "AFT-MKT" ∧
      normalize (some "AFT_MKT") = .session "AFT-MKT" ∧
      normalize (some "Aft-mkt") = .session "AFT-MKT") ∧
    (normalize (some "BEFMKT") = .session "BEF-MKT" ∧
      normalize (some "BEF_MKT") = .session "BEF-MKT" ∧
      normalize (some "Bef-mkt") = .session "BEF-MKT") ∧
    (normalize (some "DURMKT") = .session "DUR-MKT" ∧
      normalize (some "DUR_MKT") = .session "DUR-MKT" ∧
      normalize (some "Dur-mkt") = .session "DUR-MKT") ∧
    (∀ raw, parse_hhmm raw = none → normalize_market_tag raw = none →
      normalize raw = .unresolved) := by
  refine ⟨rfl, ?_, ?_, parse_hhmm_bounds, ?_, by decide, by decide, by decide,
    by decide, ?_⟩
  · intro s hs
    simp [normalize, parse_hhmm, normalize_market_tag, hs]
  · intro raw t h
    simp [normalize, h]
  · intro s h m hm hh hmm
    have hse : pyStrip s ≠ "" := by
      intro hc
      rw [hc] at hm
      have : matchHHMM ("".data) = none := rfl
      rw [this] at hm
      cases hm
    have hp : parse_hhmm (some s) = some ⟨h, m⟩ := by
      simp only [parse_hhmm]
      rw [if_neg hse, hm]
      dsimp only
      rw [if_pos ⟨hh, hmm⟩]
    exact ⟨hp, by simp [normalize, hp]⟩
  · intro raw h1 h2
    simp [normalize, h1, h2]

/-- Claim C3 witness: a blank field, an in-range clock time and
unrecognized text, each at a concrete input. -/
theorem C3_normalizer_witness :
    normalize (some "   ") = .unresolved ∧
    normalize (some "07:15") = .explicitTime ⟨7, 15⟩ ∧
    normalize (some "xyz") = .unresolved :=
  ⟨C3_normalizer.2.1 "   " (by decide),
   (C3_normalizer.2.2.2.2.1 "07:15" 7 15 (by decide) (by decide) (by decide)).2,
   C3_normalizer.2.2.2.2.2.2.2.2.2 (some "xyz") (by decide) (by decide)⟩

/-- Claim C4: identity is deterministic. `stable_uid` is a pure function
of the ordered tuple of parts (a namespace-based name hash — it equals
`uuid5` of the bar-joined tuple under the URL namespace, with no random
input anywhere), so equal tuples give equal ids, and the whole flow maps
equal row lists to equal outputs (same events, same uids, same
timestamps). -/
theorem C4_determinism (p1 p2 : List String) (hp : p1 = p2)
    (rows1 rows2 : List Row) (hr : rows1 = rows2) :
    stable_uid p1 = stable_uid p2 ∧
    stable_uid p1 = uuid5 NAMESPACE_URL (joinBar p1) ∧
    automation_calendar_flow rows1 = automation_calendar_flow rows2 ∧
    (rowEvents rows1).map Event.uid = (rowEvents rows2).map Event.uid ∧
    (rowEvents rows1).map Event.eBegin = (rowEvents rows2).map Event.eBegin := by
  subst hp
  subst hr
  exact ⟨rfl, rfl, rfl, rfl, rfl⟩

/-- Claim C4 witness: the determinism theorem applied to a concrete
tuple and a concrete row list. -/
theorem C4_determinism_witness :
    stable_uid ["PETR", "4Q24", "2024-11-14", "Pós-mercado"] =
      stable_uid ["PETR", "4Q24", "2024-11-14", "Pós-mercado"] ∧
    automation_calendar_flow [sampleRow] = automation_calendar_flow [sampleRow] :=
  ⟨(C4_determinism ["PETR", "4Q24", "2024-11-14", "Pós-mercado"]
      ["PETR", "4Q24", "2024-11-14", "Pós-mercado"] rfl [sampleRow] [sampleRow]
      rfl).1,
   (C4_determinism ["PETR", "4Q24", "2024-11-14", "Pós-mercado"]
      ["PETR", "4Q24", "2024-11-14", "Pós-mercado"] rfl [sampleRow] [sampleRow]
      rfl).2.2.1⟩

/-- Claim C5 counterexample: the display-ticker transform does not strip
only trailing digits — `A1B` has no trailing digit (its last character is
the non-digit `B`) yet it is changed to `AB`, because the transform
deletes every digit. -/
theorem C5_counterexample :
    remove_numbers_from_ticker "A1B" = "AB" ∧ ("AB" : String) ≠ "A1B" ∧
    "A1B".data.getLast? = some 'B' ∧ 'B'.isDigit = false := by
  decide

/-- Claim C5 amended: the display-ticker transform removes every digit of
the ticker (`PETR4` becomes `PETR`), and a ticker containing no digit at
all passes through unchanged. -/
theorem C5_ticker_transform (s : String) (h : ∀ c ∈ s.data, c.isDigit = false) :
    remove_numbers_from_ticker "PETR4" = "PETR" ∧
    remove_numbers_from_ticker s = s := by
  refine ⟨by decide, ?_⟩
  unfold remove_numbers_from_ticker
  have hf : s.data.filter (fun c => !c.isDigit) = s.data := by
    apply List.filter_eq_self.mpr
    intro a ha
    simp [h a ha]
  rw [hf]

/-- Claim C5 witness: a digit-free ticker passes through unchanged. -/
theorem C5_ticker_transform_witness :
    remove_numbers_from_ticker "PETR" = "PETR" :=
  (C5_ticker_transform "PETR" (by decide)).2

/-- Claim C6 counterexample: an unparseable non-blank period does not
fall back to the generic label — `FY24` is returned unchanged, not
`"Resultados"`. -/
theorem C6_counterexample :
    extract_period_quarter (some "FY24") = "FY24" ∧
    ("FY24" : String) ≠ "Resultados" := by
  decide

/-- Claim C6 amended: `4T24` is rewritten to `4Q24`; an
already-canonical `4Q24` passes through unchanged; a missing or empty
period falls back to `"Resultados"`; any other non-empty period that
matches neither quarter pattern is returned stripped but otherwise
unchanged. -/
theorem C6_period_label (s : String) (hs : s ≠ "")
    (hq : matchPeriodQ (pyStrip s).data = false)
    (ht : matchPeriodT (pyStrip s).data = none) :
    extract_period_quarter (some "4T24") = "4Q24" ∧
    extract_period_quarter (some "4Q24") = "4Q24" ∧
    extract_period_quarter none = "Resultados" ∧
    extract_period_quarter (some "") = "Resultados" ∧
    extract_period_quarter (some s) = pyStrip s := by
  refine ⟨by decide, by decide, rfl, by decide, ?_⟩
  simp only [extract_period_quarter]
  rw [if_neg hs]
  simp [hq, ht]

/-- Claim C6 witness: the amended pass-through at the concrete
unparseable period `FY24`. -/
theorem C6_period_label_witness :
    extract_period_quarter (some "FY24") = pyStrip "FY24" :=
  (C6_period_label "FY24" (by decide) (by decide) (by decide)).2.2.2.2

/-- Claim C7: with neither clock time nor session tag, a sector covered
by an analyst resolves to the given date at that analyst's configured
notification time with the label naming the analyst and the time in
`HH:MM` form (Bancos is covered by Arthur at 07:00, so 2024-11-14
resolves to 2024-11-14 07:00); a sector with no coverage group resolves
to the given date at 18:00 with the post-market label. -/
theorem C7_coverage_fallback (d : Date) (setor g setor2 : String)
    (hg : get_analyst_from_sector setor = some g)
    (h2 : get_analyst_from_sector setor2 = none) :
    (∃ t, HORARIO_NOTIFICACAO.lookup g = some t ∧
      determine_start_time d setor none none =
        some (⟨d, t, TZ⟩, "Notificação " ++ g ++ " (" ++ timeHHMM t ++ ")")) ∧
    determine_start_time ⟨2024, 11, 14⟩ "Bancos" none none =
      some (⟨⟨2024, 11, 14⟩, ⟨7, 0⟩, TZ⟩, "Notificação Arthur (07:00)") ∧
    determine_start_time d setor2 none none =
      some (⟨d, ⟨18, 0⟩, TZ⟩, "Pós-mercado") := by
  refine ⟨?_, by decide, ?_⟩
  · rcases get_analyst_cases setor g hg with rfl | rfl
    · exact ⟨⟨7, 0⟩, rfl, by simp [determine_start_time, hg,
        HORARIO_NOTIFICACAO, List.lookup]⟩
    · exact ⟨⟨8, 0⟩, rfl, by simp [determine_start_time, hg,
        HORARIO_NOTIFICACAO, List.lookup]⟩
  · simp [determine_start_time, h2]

/-- Claim C7 witness: the coverage rule at sector Bancos (Arthur, 07:00)
and the full fallback at an unknown sector. -/
theorem C7_coverage_fallback_witness :
    determine_start_time ⟨2024, 11, 14⟩ "Bancos" none none =
      some (⟨⟨2024, 11, 14⟩, ⟨7, 0⟩, TZ⟩, "Notificação Arthur (07:00)") ∧
    determine_start_time ⟨2024, 11, 14⟩ "???" none none =
      some (⟨⟨2024, 11, 14⟩, ⟨18, 0⟩, TZ⟩, "Pós-mercado") :=
  ⟨(C7_coverage_fallback ⟨2024, 11, 14⟩ "Bancos" "Arthur" "???" (by decide)
      (by decide)).2.1,
   (C7_coverage_fallback ⟨2024, 11, 14⟩ "Bancos" "Arthur" "???" (by decide)
      (by decide)).2.2⟩

/-- Claim C8: the start-time derivation is total on everything the
normalizer can produce — for every date, sector and raw time field, the
resolver returns a value, because the tag normalizer only ever outputs
keys of the session default-time table (so the unguarded lookup cannot
fail), and hence the whole flow returns ok on every row list. -/
theorem C8_totality (d : Date) (setor : String) (raw raw2 : Option String)
    (rows : List Row) (k : String) (hk : normalize_market_tag raw2 = some k) :
    (determine_start_time d setor (parse_hhmm raw)
      (normalize_market_tag raw)).isSome = true ∧
    (DEFAULT_TIME_MAP.lookup k).isSome = true ∧
    automation_calendar_flow rows =
      .ok (rowEvents rows, (rowEvents rows).length, countSkipped rows) :=
  ⟨determine_isSome d setor raw, normalize_market_tag_key raw2 k hk,
   flow_eq rows⟩

/-- Claim C8 witness: totality at a concrete input, and the lookup of
the concrete canonical tag produced by the normalizer. -/
theorem C8_totality_witness :
    (determine_start_time ⟨2024, 11, 14⟩ "" (parse_hhmm none)
      (normalize_market_tag none)).isSome = true ∧
    (DEFAULT_TIME_MAP.lookup "AFT-MKT").isSome = true :=
  ⟨(C8_totality ⟨2024, 11, 14⟩ "" none (some "Aft-mkt") [] "AFT-MKT"
      (by decide)).1,
   (C8_totality ⟨2024, 11, 14⟩ "" none (some "Aft-mkt") [] "AFT-MKT"
      (by decide)).2.1⟩

/-- Claim C9: a record with an empty or placeholder ticker or an
unparseable date is skipped, the ignored counter is incremented, no
event is emitted for it, the surrounding records are processed exactly
as if it were absent, and every record of the run is either made into an
event or counted as ignored — the run never aborts. -/
theorem C9_skip_defects (pre post : List Row) (bad : Row)
    (hbad : pyStrip bad.ticker = "" ∨ pyLower (pyStrip bad.ticker) = "nan" ∨
      bad.data = none) :
    processRow bad = .skipped ∧
    automation_calendar_flow (pre ++ bad :: post) =
      .ok (rowEvents (pre ++ post), (rowEvents (pre ++ post)).length,
        countSkipped (pre ++ post) + 1) ∧
    (rowEvents (pre ++ bad :: post)).length + countSkipped (pre ++ bad :: post) =
      (pre ++ bad :: post).length := by
  have hsk := defect_skipped bad hbad
  refine ⟨hsk, ?_, counts_sum _⟩
  rw [flow_eq]
  have he : rowEvents (pre ++ bad :: post) = rowEvents (pre ++ post) := by
    rw [show pre ++ bad :: post = pre ++ [bad] ++ post by simp,
      rowEvents_append, rowEvents_append, rowEvents_append]
    have : rowEvents [bad] = [] := by
      simp [rowEvents, List.filterMap_cons, hsk]
    rw [this]
    simp
  have hc : countSkipped (pre ++ bad :: post) = countSkipped (pre ++ post) + 1 := by
    rw [show pre ++ bad :: post = pre ++ [bad] ++ post by simp,
      countSkipped_append, countSkipped_append, countSkipped_append]
    have : countSkipped [bad] = 1 := by
      simp [countSkipped, List.filter_cons, isSkippedRow, hsk]
    rw [this]
    omega
  rw [he, hc]

/-- Claim C9 witness: a row with an empty ticker, alone in the run, is
skipped, produces no event, and bumps only the ignored counter. -/
theorem C9_skip_defects_witness :
    processRow badRow = .skipped ∧
    automation_calendar_flow [badRow] = .ok ([], 0, 1) := by
  have h := C9_skip_defects [] [] badRow (Or.inl (by decide))
  exact ⟨h.1, by simpa [rowEvents, countSkipped] using h.2.1⟩

/-- Claim C10: the timing label the resolver hands the assembler is never
empty and never the generic placeholder `"Resultados"`, so the guard in
the title construction always passes and every emitted event's title has
the timing label appended in parentheses after the period label. -/
theorem C10_title_always_labelled (rows : List Row) (e : Event)
    (he : e ∈ rowEvents rows) (d : Date) (setor : String) (raw : Option String)
    (dt : DateTime) (lbl : String)
    (hd : determine_start_time d setor (parse_hhmm raw)
      (normalize_market_tag raw) = some (dt, lbl)) :
    (lbl ≠ "" ∧ lbl ≠ "Resultados") ∧
    ∃ tc pl td, td ≠ "" ∧ td ≠ "Resultados" ∧
      e.name = "[" ++ tc ++ "] - Divulgação de " ++ pl ++ " (" ++ td ++ ")" := by
  refine ⟨label_facts d setor raw dt lbl hd, ?_⟩
  rw [rowEvents, List.mem_filterMap] at he
  obtain ⟨r, hr, hpr⟩ := he
  have hm : processRow r = .made e := by
    cases hp : processRow r with
    | errKey => rw [hp] at hpr; cases hpr
    | skipped => rw [hp] at hpr; cases hpr
    | made e2 =>
      rw [hp] at hpr
      exact congrArg RowResult.made (Option.some.inj hpr)
  exact processRow_made_name r e hm

/-- Claim C10 witness: the single event of a sample run carries a
parenthesized timing label, instantiated together with the resolver
label fact at the full-fallback input. -/
theorem C10_title_always_labelled_witness :
    (("Pós-mercado" : String) ≠ "" ∧ ("Pós-mercado" : String) ≠ "Resultados") ∧
    ∃ tc pl td, td ≠ "" ∧ td ≠ "Resultados" ∧
      ((rowEvents [sampleRow]).head (by decide)).name =
        "[" ++ tc ++ "] - Divulgação de " ++ pl ++ " (" ++ td ++ ")" :=
  C10_title_always_labelled [sampleRow]
    ((rowEvents [sampleRow]).head (by decide)) (List.head_mem _)
    ⟨2024, 11, 14⟩ "" none ⟨⟨2024, 11, 14⟩, ⟨18, 0⟩, TZ⟩ "Pós-mercado"
    (by decide)

end Calendar
